import Mathlib

/-!
Shallow embedding of the pricing engine of the dropshiper repository
(app/services/pricing_service.py) together with proofs about it.

Modelling conventions:
* Monetary values (Python Decimal and float) are embedded as rationals.
  The operations performed by the engine (addition, multiplication,
  division by 100, floor-based remainder) are exact on the inputs the
  claims quantify over, so rational arithmetic is faithful.
* Timestamps are integers; `now` is passed explicitly (the source calls
  datetime.utcnow()).
* Nullable columns become Option types.  Python truthiness on a Decimal
  treats both None and 0 as falsy; the embedding spells this out at each
  use site.
* The database session becomes an explicit record of row lists; the
  SQLAlchemy queries become find?/filter over those lists.  The query
  ORDER BY priority DESC requests no secondary sort key, so it
  constrains the result only up to permutations of equal-priority rows;
  the executable model refines that to a stable insertion sort on the
  stored row order, and satisfiesQueryContract states exactly the order
  constraint the source requests, so properties of the unspecified tie
  order are not read off the refinement.
-/

namespace Dropshiper

/-- Row of pricing_rules (app/models/pricing_rule.py).  rule_value is
nullable in the schema but the engine assumes rules are well-formed
(spec section 7), so it is embedded as a plain rational. -/
structure PricingRule where
  id : String
  partner_id : String
  rule_name : String
  rule_type : String
  rule_value : ℚ
  min_quantity : ℤ
  max_quantity : Option ℤ
  category_filter : Option String
  priority : ℤ
  is_active : Bool
  valid_from : ℤ
  valid_until : Option ℤ
deriving DecidableEq

/-- Row of partners (app/models/partner.py), pricing-relevant columns. -/
structure Partner where
  id : String
  profit_percentage : Option ℚ
  fixed_amount : Option ℚ
  price_ending_digit : Option ℤ
deriving DecidableEq

/-- Row of products (app/models/product.py), pricing-relevant columns. -/
structure Product where
  id : String
  category : Option String
  partner_id : Option String
deriving DecidableEq

/-- Row of sku (app/models/sku.py), pricing-relevant columns. -/
structure SKU where
  id : String
  product_id : String
  base_price : Option ℚ
  final_price : Option ℚ
deriving DecidableEq

/-- The database state visible to the pricing service. -/
structure DB where
  partners : List Partner
  products : List Product
  skus : List SKU
  rules : List PricingRule
deriving DecidableEq

/-- select(Partner).where(Partner.id == partner_id) ... scalar_one_or_none(). -/
def findPartner (db : DB) (partner_id : String) : Option Partner :=
  db.partners.find? (fun p => p.id == partner_id)

/-- select(Product).where(Product.id == product_id) ... scalar_one_or_none(). -/
def findProduct (db : DB) (product_id : String) : Option Product :=
  db.products.find? (fun p => p.id == product_id)

/-- select(SKU).where(SKU.id == sku_id) ... scalar_one_or_none(). -/
def findSKU (db : DB) (sku_id : String) : Option SKU :=
  db.skus.find? (fun s => s.id == sku_id)

/-- Python float remainder a % b for b > 0 (used on line 381 of the
source): a - b * floor(a / b), exact in rational arithmetic. -/
def pymod (a b : ℚ) : ℚ := a - b * ⌊a / b⌋

/-- Python int() truncation toward zero, on rationals. -/
def intTrunc (q : ℚ) : ℤ := if q < 0 then ⌈q⌉ else ⌊q⌋

/-- PricingService._apply_pricing_rule (lines 129-151). -/
def apply_pricing_rule (current_price : ℚ) (rule : PricingRule) : ℚ :=
  if rule.rule_type == "percentage" then
    current_price * (1 + rule.rule_value / 100)
  else if rule.rule_type == "fixed_amount" then
    current_price + rule.rule_value
  else if rule.rule_type == "custom" then
    current_price
  else
    current_price

/-- The WHERE clause of _get_applicable_pricing_rules (lines 101-122).
SQL equality against NULL is never satisfied, so a set category_filter
only matches a non-null equal category. -/
def ruleApplicable (r : PricingRule) (partner_id : String)
    (category : Option String) (quantity now : ℤ) : Bool :=
  r.partner_id == partner_id &&
  r.is_active &&
  decide (r.valid_from ≤ now) &&
  decide (r.min_quantity ≤ quantity) &&
  (match r.valid_until with
   | none => true
   | some v => decide (v ≥ now)) &&
  (match r.max_quantity with
   | none => true
   | some m => decide (m ≥ quantity)) &&
  (match r.category_filter with
   | none => true
   | some c => category == some c)

/-- Descending-priority order used by ORDER BY priority DESC. -/
def ruleGE (a b : PricingRule) : Prop := b.priority ≤ a.priority

instance : DecidableRel ruleGE :=
  fun a b => inferInstanceAs (Decidable (b.priority ≤ a.priority))

instance : IsTotal PricingRule ruleGE :=
  ⟨fun a b => le_total b.priority a.priority⟩

instance : IsTrans PricingRule ruleGE :=
  ⟨fun _ _ _ hab hbc => le_trans hbc hab⟩

/-- PricingService._get_applicable_pricing_rules (lines 91-127): the rows
satisfying the WHERE clause, ordered by descending priority.  The source
requests no secondary sort key, so the relative order of equal-priority
rows is unspecified by the query; this executable model refines it to
the stored row order (a stable sort).  satisfiesQueryContract below
captures only what the source requests. -/
def get_applicable_pricing_rules (db : DB) (partner_id : String)
    (category : Option String) (quantity now : ℤ) : List PricingRule :=
  List.insertionSort ruleGE
    (db.rules.filter (fun r => ruleApplicable r partner_id category quantity now))

/-- PricingService.calculate_price (lines 18-54): resolve SKU, its
product and the product's partner; if any link is missing return
cost_price unchanged; otherwise left-fold the rule application over the
applicable rules starting from cost_price. -/
def calculate_price (db : DB) (sku_id : String) (cost_price : ℚ)
    (quantity now : ℤ) : ℚ :=
  match findSKU db sku_id with
  | none => cost_price
  | some sku =>
    match findProduct db sku.product_id with
    | none => cost_price
    | some product =>
      match product.partner_id with
      | none => cost_price
      | some pid =>
        match findPartner db pid with
        | none => cost_price
        | some _ =>
          (get_applicable_pricing_rules db pid product.category quantity now).foldl
            apply_pricing_rule cost_price

/-- PricingService.calculate_price_for_product (lines 56-89). -/
def calculate_price_for_product (db : DB) (product_id : String)
    (cost_price : ℚ) (quantity now : ℤ) : ℚ :=
  match findProduct db product_id with
  | none => cost_price
  | some product =>
    match product.partner_id with
    | none => cost_price
    | some pid =>
      match findPartner db pid with
      | none => cost_price
      | some _ =>
        (get_applicable_pricing_rules db pid product.category quantity now).foldl
          apply_pricing_rule cost_price

/-- PricingService._calculate_price_with_profit (lines 322-353).  The
Python guard (not base_price or base_price <= 0) sends None and every
non-positive value to zero. -/
def calculate_price_with_profit (base_price : Option ℚ)
    (profit_percentage fixed_amount : ℚ) : ℚ :=
  match base_price with
  | none => 0
  | some b =>
    if b ≤ 0 then 0
    else b + b * (profit_percentage / 100) + fixed_amount

/-- PricingService._apply_price_ending (lines 363-398), including the
conditional on adjustment > 3 whose two branches are identical. -/
def apply_price_ending (price : ℚ) (ending_digit : ℤ) : ℚ :=
  if ending_digit ≤ 0 then price
  else
    let remainder := pymod price (ending_digit : ℚ)
    if remainder = 0 then price
    else
      let adjustment := (ending_digit : ℚ) - remainder
      let adjusted_price :=
        if adjustment > 3 then price + adjustment else price + adjustment
      ((intTrunc adjusted_price : ℤ) : ℚ)

/-- The price-ending step as the spec words it (section 4.4): always add
the adjustment, with no conditional on its magnitude. -/
def apply_price_ending_always_add (price : ℚ) (ending_digit : ℤ) : ℚ :=
  if ending_digit ≤ 0 then price
  else
    let remainder := pymod price (ending_digit : ℚ)
    if remainder = 0 then price
    else ((intTrunc (price + ((ending_digit : ℚ) - remainder)) : ℤ) : ℚ)

/-- PricingService.calculate_final_price_with_formula (lines 279-320).
The non-positive guard runs before the partner lookup; a missing partner
returns base_price; otherwise the profit formula result is normalized
with the partner's ending digit, null columns defaulting to 0 via the
Python or-operator. -/
def calculate_final_price_with_formula (db : DB) (base_price : Option ℚ)
    (partner_id : String) : ℚ :=
  match base_price with
  | none => 0
  | some b =>
    if b ≤ 0 then 0
    else
      match findPartner db partner_id with
      | none => b
      | some partner =>
        apply_price_ending
          (calculate_price_with_profit (some b)
            (partner.profit_percentage.getD 0) (partner.fixed_amount.getD 0))
          (partner.price_ending_digit.getD 0)

/-- The SKU filter of update_sku_final_prices (lines 407-409): all SKUs,
or those of one product. -/
def skuSelected (product_id : Option String) (s : SKU) : Bool :=
  match product_id with
  | none => true
  | some pid => s.product_id == pid

/-- One iteration of the loop of update_sku_final_prices (lines 415-425):
Python truthiness skips a None or zero base_price, a missing product row
and a null partner_id; otherwise the formula path is recomputed and
final_price is reassigned only when the result differs. -/
def skuRecompute (db : DB) (s : SKU) : SKU × Nat :=
  match s.base_price with
  | none => (s, 0)
  | some b =>
    if b = 0 then (s, 0)
    else
      match (findProduct db s.product_id).bind (fun p => p.partner_id) with
      | none => (s, 0)
      | some pid =>
        let np := calculate_final_price_with_formula db (some b) pid
        if s.final_price == some np then (s, 0)
        else ({ s with final_price := some np }, 1)

/-- PricingService.update_sku_final_prices (lines 400-433).  Each
iteration reads only partner and product rows, never another SKU, so the
sequential in-place loop is the map below; the returned count is the
number of SKUs whose final_price was reassigned. -/
def update_sku_final_prices (db : DB) (product_id : Option String) : DB × Nat :=
  let newSkus := db.skus.map
    (fun s => if skuSelected product_id s then (skuRecompute db s).1 else s)
  let count := (db.skus.map
    (fun s => if skuSelected product_id s then (skuRecompute db s).2 else 0)).sum
  ({ db with skus := newSkus }, count)

/-- Whether the bulk recompute actually changes a given SKU: selected by
the truthiness guards and with a recomputed value differing from the
stored one. -/
def skuChangedSpec (db : DB) (s : SKU) : Bool :=
  match s.base_price with
  | none => false
  | some b =>
    if b = 0 then false
    else
      match (findProduct db s.product_id).bind (fun p => p.partner_id) with
      | none => false
      | some pid =>
        !(s.final_price == some (calculate_final_price_with_formula db (some b) pid))

/-! ### Helper lemmas about the price-ending normalizer -/

theorem intTrunc_intCast (n : ℤ) : intTrunc (n : ℚ) = n := by
  unfold intTrunc
  split
  · exact Int.ceil_intCast n
  · exact Int.floor_intCast n

theorem pymod_int_mul (k e : ℤ) (he : 0 < e) : pymod ((k : ℚ) * e) (e : ℚ) = 0 := by
  have hne : (e : ℚ) ≠ 0 := Int.cast_ne_zero.mpr (by omega)
  unfold pymod
  rw [mul_div_assoc, div_self hne, mul_one, Int.floor_intCast]
  ring

theorem apply_price_ending_rem_ne (p : ℚ) (e : ℤ) (he : 0 < e)
    (h : pymod p (e : ℚ) ≠ 0) :
    apply_price_ending p e = ((e * (⌊p / (e : ℚ)⌋ + 1) : ℤ) : ℚ) := by
  have h0 : ¬ e ≤ 0 := not_le.mpr he
  have hadj : p + ((e : ℚ) - pymod p (e : ℚ)) = ((e * (⌊p / (e : ℚ)⌋ + 1) : ℤ) : ℚ) := by
    unfold pymod
    push_cast
    ring
  simp only [apply_price_ending, h0, if_false, h, ite_self, hadj, intTrunc_intCast]

theorem apply_price_ending_rem_eq (p : ℚ) (e : ℤ) (h : pymod p (e : ℚ) = 0) :
    apply_price_ending p e = p := by
  unfold apply_price_ending
  split
  · rfl
  · simp only [h, if_true]

theorem le_apply_price_ending (p : ℚ) (e : ℤ) (he : 0 < e) :
    p ≤ apply_price_ending p e := by
  by_cases h : pymod p (e : ℚ) = 0
  · rw [apply_price_ending_rem_eq p e h]
  · rw [apply_price_ending_rem_ne p e he h]
    have heq : (e : ℚ) > 0 := by exact_mod_cast he
    have hlt : p / (e : ℚ) < (⌊p / (e : ℚ)⌋ + 1 : ℚ) := by
      exact_mod_cast Int.lt_floor_add_one (p / (e : ℚ))
    have := (div_lt_iff₀ heq).mp hlt
    push_cast
    linarith

theorem apply_price_ending_mul (p : ℚ) (e : ℤ) (he : 0 < e) :
    ∃ k : ℤ, apply_price_ending p e = (k : ℚ) * e := by
  by_cases h : pymod p (e : ℚ) = 0
  · refine ⟨⌊p / (e : ℚ)⌋, ?_⟩
    rw [apply_price_ending_rem_eq p e h]
    unfold pymod at h
    linarith
  · refine ⟨⌊p / (e : ℚ)⌋ + 1, ?_⟩
    rw [apply_price_ending_rem_ne p e he h]
    push_cast
    ring

theorem apply_price_ending_idem (p : ℚ) (e : ℤ) (he : 0 < e) :
    apply_price_ending (apply_price_ending p e) e = apply_price_ending p e := by
  obtain ⟨k, hk⟩ := apply_price_ending_mul p e he
  rw [hk]
  exact apply_price_ending_rem_eq _ e (pymod_int_mul k e he)

/-! ### Claims C2, C5, C6, C10 -/

/-- C2: for every base_price > 0 the partner formula calculator returns
base_price + base_price * (profit_percentage / 100) + fixed_amount; for
base_price null or non-positive it returns zero; and
price_with_profit(100000, 20, 5000) = 125000. -/
theorem claim_C2 (b c pp fa : ℚ) (hb : 0 < b) (hc : c ≤ 0) :
    calculate_price_with_profit (some b) pp fa = b + b * (pp / 100) + fa ∧
    calculate_price_with_profit (some c) pp fa = 0 ∧
    calculate_price_with_profit none pp fa = 0 ∧
    calculate_price_with_profit (some 100000) 20 5000 = 125000 := by
  refine ⟨?_, ?_, rfl, by norm_num [calculate_price_with_profit]⟩
  · simp [calculate_price_with_profit, not_le.mpr hb]
  · simp [calculate_price_with_profit, hc]

/-- Witness for C2 at b = 2, c = 0, pp = 50, fa = 7. -/
theorem claim_C2_witness :
    calculate_price_with_profit (some 2) 50 7 = 2 + 2 * (50 / 100) + 7 ∧
    calculate_price_with_profit (some 0) 50 7 = 0 ∧
    calculate_price_with_profit none 50 7 = 0 ∧
    calculate_price_with_profit (some 100000) 20 5000 = 125000 :=
  claim_C2 2 0 50 7 (by norm_num) (by norm_num)

/-- C5: the price-ending normalizer returns the price unchanged when the
ending digit is 0 or the remainder is 0; otherwise it returns
price + (ending_digit - remainder) truncated to an integral amount; the
conditional on adjustment > 3 has no effect (the function equals the
always-add version); normalize(125000, 1000) = 125000 and
normalize(125137, 1000) = 126000. -/
theorem claim_C5 (p q : ℚ) (e : ℤ) (he : 0 < e)
    (hq : pymod q (e : ℚ) = 0) (hp : pymod p (e : ℚ) ≠ 0) :
    apply_price_ending p 0 = p ∧
    apply_price_ending q e = q ∧
    apply_price_ending p e = ((intTrunc (p + ((e : ℚ) - pymod p (e : ℚ))) : ℤ) : ℚ) ∧
    (∃ k : ℤ, apply_price_ending p e = (k : ℚ)) ∧
    (∀ p2 : ℚ, ∀ e2 : ℤ, apply_price_ending p2 e2 = apply_price_ending_always_add p2 e2) ∧
    apply_price_ending 125000 1000 = 125000 ∧
    apply_price_ending 125137 1000 = 126000 := by
  have h0 : ¬ e ≤ 0 := not_le.mpr he
  refine ⟨rfl, apply_price_ending_rem_eq q e hq, ?_, ?_, ?_, ?_, ?_⟩
  · simp only [apply_price_ending, h0, if_false, hp, ite_self]
  · exact ⟨e * (⌊p / (e : ℚ)⌋ + 1), apply_price_ending_rem_ne p e he hp⟩
  · intro p2 e2
    simp only [apply_price_ending, apply_price_ending_always_add, ite_self]
  · norm_num [apply_price_ending, pymod]
  · norm_num [apply_price_ending, pymod, intTrunc]

/-- Witness for C5 at p = 125137, q = 125000, e = 1000. -/
theorem claim_C5_witness :
    apply_price_ending 125137 0 = 125137 ∧
    apply_price_ending 125000 1000 = 125000 ∧
    apply_price_ending 125137 1000 =
      ((intTrunc (125137 + ((1000 : ℚ) - pymod 125137 (1000 : ℚ))) : ℤ) : ℚ) ∧
    (∃ k : ℤ, apply_price_ending 125137 1000 = (k : ℚ)) ∧
    (∀ p2 : ℚ, ∀ e2 : ℤ, apply_price_ending p2 e2 = apply_price_ending_always_add p2 e2) ∧
    apply_price_ending 125000 1000 = 125000 ∧
    apply_price_ending 125137 1000 = 126000 :=
  claim_C5 125137 125000 1000 (by norm_num) (by norm_num [pymod]) (by norm_num [pymod])

/-- C6: for every price p ≥ 0 and ending digit e > 0 the normalizer never
decreases the price. -/
theorem claim_C6 (p : ℚ) (e : ℤ) (hp : 0 ≤ p) (he : 0 < e) :
    p ≤ apply_price_ending p e :=
  le_apply_price_ending p e he

/-- Witness for C6 at p = 125137, e = 1000. -/
theorem claim_C6_witness : (125137 : ℚ) ≤ apply_price_ending 125137 1000 :=
  claim_C6 125137 1000 (by norm_num) (by norm_num)

/-- C10: for p ≥ 0 and e > 0 the normalized price is an exact integer
multiple of e, and the normalizer is idempotent. -/
theorem claim_C10 (p : ℚ) (e : ℤ) (hp : 0 ≤ p) (he : 0 < e) :
    (∃ k : ℤ, apply_price_ending p e = (k : ℚ) * e) ∧
    apply_price_ending (apply_price_ending p e) e = apply_price_ending p e :=
  ⟨apply_price_ending_mul p e he, apply_price_ending_idem p e he⟩

/-- Witness for C10 at p = 125137, e = 1000. -/
theorem claim_C10_witness :
    (∃ k : ℤ, apply_price_ending 125137 1000 = (k : ℚ) * 1000) ∧
    apply_price_ending (apply_price_ending 125137 1000) 1000 =
      apply_price_ending 125137 1000 :=
  claim_C10 125137 1000 (by norm_num) (by norm_num)

/-! ### Claim C1: the rule fold contract -/

/-- Partner of the worked example of the spec (section 8). -/
def exPartner1 : Partner :=
  { id := "p1", profit_percentage := none, fixed_amount := none,
    price_ending_digit := none }

/-- Product of the worked example. -/
def exProduct1 : Product :=
  { id := "prod1", category := some "cat", partner_id := some "p1" }

/-- SKU of the worked example. -/
def exSKU1 : SKU :=
  { id := "sku1", product_id := "prod1", base_price := none, final_price := none }

/-- Percentage rule of the worked example: priority 10, 10 percent. -/
def exRulePct : PricingRule :=
  { id := "r1", partner_id := "p1", rule_name := "pct", rule_type := "percentage",
    rule_value := 10, min_quantity := 1, max_quantity := none, category_filter := none,
    priority := 10, is_active := true, valid_from := 0, valid_until := none }

/-- Fixed-amount rule of the worked example: priority 5, +2000. -/
def exRuleFix : PricingRule :=
  { id := "r2", partner_id := "p1", rule_name := "fix", rule_type := "fixed_amount",
    rule_value := 2000, min_quantity := 1, max_quantity := none, category_filter := none,
    priority := 5, is_active := true, valid_from := 0, valid_until := none }

/-- Database of the worked example; the rules are stored in the order
opposite to their priorities so that the sort matters. -/
def exDB1 : DB :=
  { partners := [exPartner1], products := [exProduct1], skus := [exSKU1],
    rules := [exRuleFix, exRulePct] }

/-- C1: when SKU, product and partner all resolve, calculate_price is the
left fold of the rule application over the applicable rules in
descending-priority order starting from cost_price, where a percentage
rule multiplies by (1 + value/100), a fixed_amount rule adds the value,
and a custom rule is the identity; on the worked example (priority 10
percentage 10, priority 5 fixed 2000, cost 100000) the result is 112000. -/
theorem claim_C1 (db : DB) (sku : SKU) (product : Product) (partner : Partner)
    (pid sku_id : String) (cost_price : ℚ) (q now : ℤ)
    (h1 : findSKU db sku_id = some sku)
    (h2 : findProduct db sku.product_id = some product)
    (h3 : product.partner_id = some pid)
    (h4 : findPartner db pid = some partner) :
    calculate_price db sku_id cost_price q now =
      (get_applicable_pricing_rules db pid product.category q now).foldl
        apply_pricing_rule cost_price ∧
    (∀ p : ℚ, ∀ r : PricingRule, r.rule_type = "percentage" →
      apply_pricing_rule p r = p * (1 + r.rule_value / 100)) ∧
    (∀ p : ℚ, ∀ r : PricingRule, r.rule_type = "fixed_amount" →
      apply_pricing_rule p r = p + r.rule_value) ∧
    (∀ p : ℚ, ∀ r : PricingRule, r.rule_type = "custom" →
      apply_pricing_rule p r = p) ∧
    calculate_price exDB1 "sku1" 100000 1 0 = 112000 := by
  refine ⟨?_, ?_, ?_, ?_, ?_⟩
  · simp only [calculate_price, h1, h2, h3, h4]
  · intro p r hr
    simp [apply_pricing_rule, hr]
  · intro p r hr
    simp [apply_pricing_rule, hr]
  · intro p r hr
    simp [apply_pricing_rule, hr]
  · norm_num [calculate_price, findSKU, findProduct, findPartner, exDB1, exSKU1,
      exProduct1, exPartner1, get_applicable_pricing_rules, ruleApplicable,
      exRulePct, exRuleFix, List.insertionSort, List.orderedInsert, ruleGE,
      apply_pricing_rule]
    all_goals decide

/-- Witness for C1 on the worked example database. -/
theorem claim_C1_witness :
    calculate_price exDB1 "sku1" 100000 1 0 =
      (get_applicable_pricing_rules exDB1 "p1" exProduct1.category 1 0).foldl
        apply_pricing_rule 100000 ∧
    calculate_price exDB1 "sku1" 100000 1 0 = 112000 := by
  have h := claim_C1 exDB1 exSKU1 exProduct1 exPartner1 "p1" "sku1" 100000 1 0
    (by simp [findSKU, exDB1, exSKU1]) (by simp [findProduct, exDB1, exSKU1, exProduct1])
    (by simp [exProduct1]) (by simp [findPartner, exDB1, exPartner1])
  exact ⟨h.1, h.2.2.2.2⟩

/-! ### Claims C3 and C9: the rule repository -/

/-- Boundary-case rule: min_quantity 5. -/
def exRuleMin5 : PricingRule :=
  { id := "m5", partner_id := "p1", rule_name := "m5", rule_type := "percentage",
    rule_value := 1, min_quantity := 5, max_quantity := none, category_filter := none,
    priority := 0, is_active := true, valid_from := 0, valid_until := none }

/-- Boundary-case rule: valid_until in the past (now = 1, valid_until = 0). -/
def exRuleExpired : PricingRule :=
  { id := "ex", partner_id := "p1", rule_name := "ex", rule_type := "percentage",
    rule_value := 1, min_quantity := 1, max_quantity := none, category_filter := none,
    priority := 0, is_active := true, valid_from := 0, valid_until := some 0 }

/-- Boundary-case rule: category_filter shoes. -/
def exRuleShoes : PricingRule :=
  { id := "sh", partner_id := "p1", rule_name := "sh", rule_type := "percentage",
    rule_value := 1, min_quantity := 1, max_quantity := none,
    category_filter := some "shoes",
    priority := 0, is_active := true, valid_from := 0, valid_until := none }

/-- C3: a rule is returned by the repository iff it is stored and the
applicability predicate holds (partner match, active, validity window,
quantity bounds, category filter); when nothing matches the result is
the empty list; and the three boundary cases behave as claimed. -/
theorem claim_C3 (db : DB) (pid : String) (cat : Option String) (q now : ℤ)
    (r : PricingRule) :
    (r ∈ get_applicable_pricing_rules db pid cat q now ↔
      r ∈ db.rules ∧ ruleApplicable r pid cat q now = true) ∧
    ((∀ r2 ∈ db.rules, ruleApplicable r2 pid cat q now = false) →
      get_applicable_pricing_rules db pid cat q now = []) ∧
    ruleApplicable exRuleMin5 "p1" none 4 0 = false ∧
    ruleApplicable exRuleMin5 "p1" none 5 0 = true ∧
    ruleApplicable exRuleExpired "p1" none 1 1 = false ∧
    ruleApplicable exRuleShoes "p1" (some "bags") 1 0 = false ∧
    ruleApplicable exRuleShoes "p1" (some "shoes") 1 0 = true := by
  refine ⟨?_, ?_, by decide, by decide, by decide, by decide, by decide⟩
  · rw [get_applicable_pricing_rules, List.mem_insertionSort, List.mem_filter]
  · intro hall
    rw [get_applicable_pricing_rules]
    have : db.rules.filter (fun r2 => ruleApplicable r2 pid cat q now) = [] := by
      rw [List.filter_eq_nil_iff]
      intro a ha
      simp [hall a ha]
    rw [this]
    rfl

/-- Witness for C3: an empty database returns the empty list, and the
membership equivalence holds for the min-quantity rule there. -/
theorem claim_C3_witness :
    (exRuleMin5 ∈ get_applicable_pricing_rules
        { partners := [], products := [], skus := [], rules := [] } "p1" none 5 0 ↔
      exRuleMin5 ∈ ({ partners := [], products := [], skus := [], rules := [] } : DB).rules ∧
        ruleApplicable exRuleMin5 "p1" none 5 0 = true) ∧
    get_applicable_pricing_rules
      { partners := [], products := [], skus := [], rules := [] } "p1" none 5 0 = [] := by
  have h := claim_C3 { partners := [], products := [], skus := [], rules := [] }
    "p1" none 5 0 exRuleMin5
  exact ⟨h.1, h.2.1 (by intro r2 hr2; simp at hr2)⟩

/-- The ordering contract that the query of _get_applicable_pricing_rules
actually requests from the database (lines 101-124): a result is any
permutation of the rows satisfying the WHERE clause that is sorted by
descending priority.  The source requests no secondary sort key
(contrast get_partner_pricing_rules, line 226, which adds
created_at.desc()), so the relative order of equal-priority rows is left
to the database engine. -/
def satisfiesQueryContract (db : DB) (partner_id : String)
    (category : Option String) (quantity now : ℤ) (l : List PricingRule) : Prop :=
  l.Perm (db.rules.filter (fun r => ruleApplicable r partner_id category quantity now)) ∧
  l.Sorted ruleGE

/-- Equal-priority rule stored first. -/
def exRuleTieA : PricingRule :=
  { id := "ta", partner_id := "p1", rule_name := "ta", rule_type := "percentage",
    rule_value := 1, min_quantity := 1, max_quantity := none, category_filter := none,
    priority := 7, is_active := true, valid_from := 0, valid_until := none }

/-- Equal-priority rule stored second. -/
def exRuleTieB : PricingRule :=
  { id := "tb", partner_id := "p1", rule_name := "tb", rule_type := "fixed_amount",
    rule_value := 1, min_quantity := 1, max_quantity := none, category_filter := none,
    priority := 7, is_active := true, valid_from := 0, valid_until := none }

/-- Database with the two tied rules. -/
def exDB9 : DB :=
  { partners := [], products := [], skus := [], rules := [exRuleTieA, exRuleTieB] }

/-- C9: the ordering contract the source requests (ORDER BY priority
DESC with no secondary key) does not determine the result.  On a
database with two distinct applicable rules of equal priority, both
relative orders satisfy that contract, so the claimed deterministic,
cross-invocation-stable tie order is not guaranteed by the program; the
spec (section 4.1) states the intent that ties be broken stably, which
the query does not request.  The executable model resolves the
underdetermination by picking the stored order. -/
theorem claim_C9_order_underdetermined :
    satisfiesQueryContract exDB9 "p1" none 1 0 [exRuleTieA, exRuleTieB] ∧
    satisfiesQueryContract exDB9 "p1" none 1 0 [exRuleTieB, exRuleTieA] ∧
    [exRuleTieA, exRuleTieB] ≠ [exRuleTieB, exRuleTieA] ∧
    get_applicable_pricing_rules exDB9 "p1" none 1 0 = [exRuleTieA, exRuleTieB] := by
  have hfilter : exDB9.rules.filter
      (fun r => ruleApplicable r "p1" none 1 0) = [exRuleTieA, exRuleTieB] := by decide
  refine ⟨⟨?_, ?_⟩, ⟨?_, ?_⟩, by decide, by decide⟩
  · rw [hfilter]
  · decide
  · rw [hfilter]
    exact List.Perm.swap exRuleTieA exRuleTieB []
  · decide


/-! ### Claims C4 and C8: the formula path and missing references -/

/-- C4: the formula entry point returns zero for null or non-positive
base_price; when the partner exists and base_price is positive it is the
price-ending normalization (ending digit defaulting to 0 when null) of
the profit formula (profit percentage and fixed amount defaulting to 0
when null); and the result never depends on the stored pricing rules. -/
theorem claim_C4 (db : DB) (b c : ℚ) (pid : String) (partner : Partner)
    (rules2 : List PricingRule)
    (hp : findPartner db pid = some partner)
    (hb : 0 < b) (hc : c ≤ 0) :
    calculate_final_price_with_formula db none pid = 0 ∧
    calculate_final_price_with_formula db (some c) pid = 0 ∧
    calculate_final_price_with_formula db (some b) pid =
      apply_price_ending
        (calculate_price_with_profit (some b)
          (partner.profit_percentage.getD 0) (partner.fixed_amount.getD 0))
        (partner.price_ending_digit.getD 0) ∧
    calculate_final_price_with_formula { db with rules := rules2 } (some b) pid =
      calculate_final_price_with_formula db (some b) pid := by
  refine ⟨rfl, ?_, ?_, rfl⟩
  · simp [calculate_final_price_with_formula, hc]
  · simp [calculate_final_price_with_formula, hp, not_le.mpr hb]

/-- Partner for the C4 witness: 20 percent, +5000, ending digit 1000. -/
def exPartner4 : Partner :=
  { id := "p4", profit_percentage := some 20, fixed_amount := some 5000,
    price_ending_digit := some 1000 }

/-- Database for the C4 witness. -/
def exDB4 : DB :=
  { partners := [exPartner4], products := [], skus := [], rules := [] }

/-- Witness for C4 at base_price 100000 on the concrete partner. -/
theorem claim_C4_witness :
    calculate_final_price_with_formula exDB4 none "p4" = 0 ∧
    calculate_final_price_with_formula exDB4 (some 0) "p4" = 0 ∧
    calculate_final_price_with_formula exDB4 (some 100000) "p4" =
      apply_price_ending
        (calculate_price_with_profit (some 100000)
          (exPartner4.profit_percentage.getD 0) (exPartner4.fixed_amount.getD 0))
        (exPartner4.price_ending_digit.getD 0) ∧
    calculate_final_price_with_formula { exDB4 with rules := [exRulePct] }
        (some 100000) "p4" =
      calculate_final_price_with_formula exDB4 (some 100000) "p4" :=
  claim_C4 exDB4 100000 0 "p4" exPartner4 [exRulePct]
    (by simp [findPartner, exDB4, exPartner4]) (by norm_num) (by norm_num)

/-- C8 (amended): every missing-reference path of the two rule-based
entry points returns cost_price unchanged; the formula entry point with
an unknown partner returns base_price unchanged when base_price is
positive, and zero when base_price is null or non-positive (the clamp
fires before the partner lookup). -/
theorem claim_C8 (db : DB) (sid pidm : String) (cp b c : ℚ) (q now : ℤ)
    (hb : 0 < b) (hc : c ≤ 0) (hpm : findPartner db pidm = none) :
    (findSKU db sid = none → calculate_price db sid cp q now = cp) ∧
    (∀ sku, findSKU db sid = some sku → findProduct db sku.product_id = none →
      calculate_price db sid cp q now = cp) ∧
    (∀ sku product, findSKU db sid = some sku →
      findProduct db sku.product_id = some product → product.partner_id = none →
      calculate_price db sid cp q now = cp) ∧
    (∀ sku product pid2, findSKU db sid = some sku →
      findProduct db sku.product_id = some product → product.partner_id = some pid2 →
      findPartner db pid2 = none → calculate_price db sid cp q now = cp) ∧
    (findProduct db sid = none → calculate_price_for_product db sid cp q now = cp) ∧
    (∀ product, findProduct db sid = some product → product.partner_id = none →
      calculate_price_for_product db sid cp q now = cp) ∧
    (∀ product pid2, findProduct db sid = some product → product.partner_id = some pid2 →
      findPartner db pid2 = none → calculate_price_for_product db sid cp q now = cp) ∧
    calculate_final_price_with_formula db (some b) pidm = b ∧
    calculate_final_price_with_formula db (some c) pidm = 0 ∧
    calculate_final_price_with_formula db none pidm = 0 := by
  refine ⟨?_, ?_, ?_, ?_, ?_, ?_, ?_, ?_, ?_, rfl⟩
  · intro h; simp [calculate_price, h]
  · intro sku h1 h2; simp [calculate_price, h1, h2]
  · intro sku product h1 h2 h3; simp [calculate_price, h1, h2, h3]
  · intro sku product pid2 h1 h2 h3 h4; simp [calculate_price, h1, h2, h3, h4]
  · intro h; simp [calculate_price_for_product, h]
  · intro product h1 h2; simp [calculate_price_for_product, h1, h2]
  · intro product pid2 h1 h2 h3; simp [calculate_price_for_product, h1, h2, h3]
  · simp [calculate_final_price_with_formula, hpm, not_le.mpr hb]
  · simp [calculate_final_price_with_formula, hc]

/-- Empty database for the C8 witness and counterexample. -/
def exDB8 : DB := { partners := [], products := [], skus := [], rules := [] }

/-- Witness for C8 on the empty database. -/
theorem claim_C8_witness :
    (findSKU exDB8 "s" = none → calculate_price exDB8 "s" 42 1 0 = 42) ∧
    (∀ sku, findSKU exDB8 "s" = some sku → findProduct exDB8 sku.product_id = none →
      calculate_price exDB8 "s" 42 1 0 = 42) ∧
    (∀ sku product, findSKU exDB8 "s" = some sku →
      findProduct exDB8 sku.product_id = some product → product.partner_id = none →
      calculate_price exDB8 "s" 42 1 0 = 42) ∧
    (∀ sku product pid2, findSKU exDB8 "s" = some sku →
      findProduct exDB8 sku.product_id = some product → product.partner_id = some pid2 →
      findPartner exDB8 pid2 = none → calculate_price exDB8 "s" 42 1 0 = 42) ∧
    (findProduct exDB8 "s" = none → calculate_price_for_product exDB8 "s" 42 1 0 = 42) ∧
    (∀ product, findProduct exDB8 "s" = some product → product.partner_id = none →
      calculate_price_for_product exDB8 "s" 42 1 0 = 42) ∧
    (∀ product pid2, findProduct exDB8 "s" = some product →
      product.partner_id = some pid2 →
      findPartner exDB8 pid2 = none → calculate_price_for_product exDB8 "s" 42 1 0 = 42) ∧
    calculate_final_price_with_formula exDB8 (some 42) "p" = 42 ∧
    calculate_final_price_with_formula exDB8 (some 0) "p" = 0 ∧
    calculate_final_price_with_formula exDB8 none "p" = 0 :=
  claim_C8 exDB8 "s" "p" 42 42 0 1 0 (by norm_num) (by norm_num) rfl

/-- Counterexample to C8 as stated: with an unknown partner and the
negative base_price -5 the formula entry point returns 0, not the
supplied base_price. -/
theorem claim_C8_counterexample :
    findPartner exDB8 "p" = none ∧
    calculate_final_price_with_formula exDB8 (some (-5)) "p" = 0 ∧
    calculate_final_price_with_formula exDB8 (some (-5)) "p" ≠ (-5 : ℚ) := by
  refine ⟨rfl, ?_, ?_⟩
  · norm_num [calculate_final_price_with_formula]
  · norm_num [calculate_final_price_with_formula]


end Dropshiper

namespace Dropshiper

/-! ### Helper lemmas for the bulk recompute -/

theorem findPartner_congr (db db2 : DB) (h : db2.partners = db.partners) :
    findPartner db2 = findPartner db := by
  funext x
  simp [findPartner, h]

theorem findProduct_congr (db db2 : DB) (h : db2.products = db.products) :
    findProduct db2 = findProduct db := by
  funext x
  simp [findProduct, h]

theorem formula_congr (db db2 : DB) (h : db2.partners = db.partners) :
    calculate_final_price_with_formula db2 = calculate_final_price_with_formula db := by
  funext bp pid
  unfold calculate_final_price_with_formula
  rw [findPartner_congr db db2 h]

theorem skuRecompute_congr (db db2 : DB) (h1 : db2.partners = db.partners)
    (h2 : db2.products = db.products) :
    skuRecompute db2 = skuRecompute db := by
  funext s
  unfold skuRecompute
  rw [findProduct_congr db db2 h2, formula_congr db db2 h1]

theorem skuRecompute_product_id (db : DB) (s : SKU) :
    (skuRecompute db s).1.product_id = s.product_id := by
  unfold skuRecompute
  cases hbp : s.base_price with
  | none => rfl
  | some b =>
    by_cases hb0 : b = 0
    · simp [hb0]
    · simp only [hb0, if_false]
      cases hpp : (findProduct db s.product_id).bind (fun p => p.partner_id) with
      | none => rfl
      | some pid =>
        simp only []
        cases hf : s.final_price ==
            some (calculate_final_price_with_formula db (some b) pid) with
        | true => simp [hf]
        | false => simp [hf]

theorem skuSelected_recompute (db : DB) (pid : Option String) (s : SKU) :
    skuSelected pid ((skuRecompute db s).1) = skuSelected pid s := by
  cases pid with
  | none => rfl
  | some x => simp [skuSelected, skuRecompute_product_id]

theorem skuRecompute_fixpoint (db : DB) (s : SKU) :
    skuRecompute db ((skuRecompute db s).1) = ((skuRecompute db s).1, 0) := by
  cases hbp : s.base_price with
  | none => simp [skuRecompute, hbp]
  | some b =>
    by_cases hb0 : b = 0
    · simp [skuRecompute, hbp, hb0]
    · cases hpp : (findProduct db s.product_id).bind (fun p => p.partner_id) with
      | none => simp [skuRecompute, hbp, hb0, hpp]
      | some pid =>
        cases hf : s.final_price ==
            some (calculate_final_price_with_formula db (some b) pid) with
        | true => simp [skuRecompute, hbp, hb0, hpp, hf]
        | false => simp [skuRecompute, hbp, hb0, hpp, hf]

theorem skuRecompute_count_eq (db : DB) (s : SKU) :
    (skuRecompute db s).2 = if skuChangedSpec db s then 1 else 0 := by
  unfold skuRecompute skuChangedSpec
  cases hbp : s.base_price with
  | none => rfl
  | some b =>
    by_cases hb0 : b = 0
    · simp [hb0]
    · simp only [hb0, if_false]
      cases hpp : (findProduct db s.product_id).bind (fun p => p.partner_id) with
      | none => rfl
      | some pid =>
        by_cases hf : s.final_price =
            some (calculate_final_price_with_formula db (some b) pid)
        · simp [hf]
        · simp [hf]

theorem skuRecompute_unchanged (db : DB) (s : SKU)
    (h : skuChangedSpec db s = false) : (skuRecompute db s).1 = s := by
  unfold skuRecompute
  unfold skuChangedSpec at h
  cases hbp : s.base_price with
  | none => rfl
  | some b =>
    rw [hbp] at h
    by_cases hb0 : b = 0
    · simp [hb0]
    · simp only [hb0, if_false] at h ⊢
      cases hpp : (findProduct db s.product_id).bind (fun p => p.partner_id) with
      | none => rfl
      | some pid =>
        rw [hpp] at h
        simp only [] at h ⊢
        cases hf : s.final_price ==
            some (calculate_final_price_with_formula db (some b) pid) with
        | true => simp [hf]
        | false => simp [hf] at h

theorem sum_map_ite_length (p : SKU → Bool) :
    ∀ l : List SKU,
      (l.map (fun s => if p s then (1 : Nat) else 0)).sum = (l.filter p).length := by
  intro l
  induction l with
  | nil => rfl
  | cons a t ih =>
    by_cases ha : p a
    · simp [ha, ih, Nat.add_comm]
    · simp [ha, ih]

end Dropshiper

namespace Dropshiper

theorem update_eval (db : DB) (pid : Option String) :
    update_sku_final_prices db pid =
      ({ db with
          skus := (db.skus.map
            (fun s => if skuSelected pid s then (skuRecompute db s).1 else s)) },
       ((db.skus.map
          (fun s => if skuSelected pid s then (skuRecompute db s).2 else 0)).sum)) := rfl

theorem skuRecompute_skus_update (db : DB) (l : List SKU) :
    skuRecompute { db with skus := l } = skuRecompute db :=
  skuRecompute_congr db _ rfl rfl

theorem update_idem (db : DB) (pid : Option String) :
    update_sku_final_prices (update_sku_final_prices db pid).1 pid =
      ((update_sku_final_prices db pid).1, 0) := by
  rw [update_eval db pid]
  dsimp only
  rw [update_eval _ pid]
  dsimp only
  simp only [skuRecompute_skus_update]
  rw [List.map_map, List.map_map]
  have h1 : List.map
      ((fun s => if skuSelected pid s then (skuRecompute db s).1 else s) ∘
        (fun s => if skuSelected pid s then (skuRecompute db s).1 else s)) db.skus =
      List.map (fun s => if skuSelected pid s then (skuRecompute db s).1 else s) db.skus := by
    apply List.map_congr_left
    intro s _
    simp only [Function.comp_apply]
    by_cases hs : skuSelected pid s
    · rw [if_pos hs, skuSelected_recompute, if_pos hs,
        congrArg Prod.fst (skuRecompute_fixpoint db s)]
    · rw [if_neg hs, if_neg hs]
  have h2 : (List.map
      ((fun s => if skuSelected pid s then (skuRecompute db s).2 else 0) ∘
        (fun s => if skuSelected pid s then (skuRecompute db s).1 else s)) db.skus).sum =
      (0 : Nat) := by
    apply List.sum_eq_zero
    intro x hx
    rw [List.mem_map] at hx
    obtain ⟨s, _, rfl⟩ := hx
    simp only [Function.comp_apply]
    by_cases hs : skuSelected pid s
    · rw [if_pos hs, skuSelected_recompute, if_pos hs,
        congrArg Prod.snd (skuRecompute_fixpoint db s)]
    · rw [if_neg hs, if_neg hs]
  rw [h1, h2]

theorem update_count (db : DB) (pid : Option String) :
    (update_sku_final_prices db pid).2 =
      (db.skus.filter (fun s => skuSelected pid s && skuChangedSpec db s)).length := by
  rw [update_eval]
  dsimp only
  rw [← sum_map_ite_length (fun s => skuSelected pid s && skuChangedSpec db s) db.skus]
  congr 1
  apply List.map_congr_left
  intro s _
  by_cases hs : skuSelected pid s
  · simp [hs, skuRecompute_count_eq]
  · simp [hs]

end Dropshiper

namespace Dropshiper

/-! ### Claim C7: the bulk recompute -/

/-- C7 (amended): the bulk recompute changes exactly the selected SKUs
whose truthy (non-null, non-zero) base_price and resolvable partner link
yield a recomputed formula price differing from the stored final_price,
returns their number, leaves unchanged every SKU the recompute does not
alter, touches no other table, and is idempotent: an immediate second
run changes nothing and returns zero. -/
theorem claim_C7 (db : DB) (pid : Option String) :
    update_sku_final_prices (update_sku_final_prices db pid).1 pid =
      ((update_sku_final_prices db pid).1, 0) ∧
    (update_sku_final_prices db pid).2 =
      (db.skus.filter (fun s => skuSelected pid s && skuChangedSpec db s)).length ∧
    (∀ s : SKU, skuChangedSpec db s = false → (skuRecompute db s).1 = s) ∧
    (update_sku_final_prices db pid).1.partners = db.partners ∧
    (update_sku_final_prices db pid).1.products = db.products ∧
    (update_sku_final_prices db pid).1.rules = db.rules :=
  ⟨update_idem db pid, update_count db pid,
    fun s h => skuRecompute_unchanged db s h, rfl, rfl, rfl⟩

/-- Partner for the C7 counterexample. -/
def exPartner7 : Partner :=
  { id := "p7", profit_percentage := some 0, fixed_amount := some 0,
    price_ending_digit := some 0 }

/-- Product for the C7 counterexample, linked to the partner. -/
def exProduct7 : Product :=
  { id := "prod7", category := none, partner_id := some "p7" }

/-- SKU for the C7 counterexample: base_price is zero (non-null) and the
stored final_price 500 differs from the recomputed value 0. -/
def exSKU7 : SKU :=
  { id := "sku7", product_id := "prod7", base_price := some 0,
    final_price := some 500 }

/-- Database for the C7 counterexample. -/
def exDB7 : DB :=
  { partners := [exPartner7], products := [exProduct7], skus := [exSKU7],
    rules := [] }

/-- Counterexample to C7 as stated: exSKU7 has a non-null base_price and
a partner, and its recomputed formula price 0 differs from the stored
500, yet the bulk recompute changes nothing and returns zero — the code
skips base_price = 0 by Python truthiness. -/
theorem claim_C7_counterexample :
    exSKU7.base_price = some 0 ∧
    (some (0 : ℚ) ≠ (none : Option ℚ)) ∧
    (findProduct exDB7 exSKU7.product_id).bind (fun p => p.partner_id) = some "p7" ∧
    findPartner exDB7 "p7" = some exPartner7 ∧
    calculate_final_price_with_formula exDB7 exSKU7.base_price "p7" = 0 ∧
    exSKU7.final_price = some 500 ∧
    ((0 : ℚ) ≠ 500) ∧
    update_sku_final_prices exDB7 none = (exDB7, 0) := by
  refine ⟨rfl, by simp, rfl, rfl, by norm_num [calculate_final_price_with_formula, exSKU7],
    rfl, by norm_num, ?_⟩
  have : skuRecompute exDB7 exSKU7 = (exSKU7, 0) := by
    norm_num [skuRecompute, exSKU7]
  rw [update_eval]
  simp only [exDB7, List.map_cons, List.map_nil, skuSelected, if_true, this]
  rfl

end Dropshiper
